import Mathlib

/-! Shallow embedding of the simulation core of the zombie-escape game
    (src/main.rs): vehicle physics and turbo, obstacle and zombie
    collision, population-capped spawning, enemy steering, road
    generation and progress bookkeeping.  The f32 arithmetic of the
    source is modelled over ℚ. -/

/-! ## Constants (src/main.rs, top of file) -/

def TURN_SPEED : ℚ := 20

def CAR_THRUST : ℚ := 20

def MAX_SPEED : ℚ := 40

def FRICTION : ℚ := 20

def MAX_CAR_HEALTH : ℚ := 200

def MIN_SPEED_TO_STEER : ℚ := 0

def TURBO_BOOST : ℚ := 60

def ZOMBIE_SPEED : ℚ := 255

def ZOMBIE_ATTACK : ℚ := 2

def TILE_H : ℕ := 16

def ROAD_WIDTH : ℕ := 5

def ROAD_HEIGHT : ℕ := 600

def ROAD_SCALE : ℚ := 5

/-- Model of f32::clamp from the Rust core library:
    if self < min return min, else if self > max return max, else self. -/
def clampQ (x lo hi : ℚ) : ℚ :=
  if x < lo then lo else if x > hi then hi else x

/-- The wasd flags handed to update_car_input
    (source: struct CarControls(bool, bool, bool, bool)). -/
structure CarControls where
  w_key : Bool
  a_key : Bool
  s_key : Bool
  d_key : Bool

/-- The turn_speed assignment in update_car_input: TURN_SPEED when the
    left key is held, -TURN_SPEED when the right key is held, else 0. -/
def turn_speed_update (c : CarControls) : ℚ :=
  if c.a_key then TURN_SPEED else if c.d_key then -TURN_SPEED else 0

/-- The speed assignment in update_car_input: braking friction (factor 1.2)
    with snap-to-0 under magnitude 10, thrust when forward is held, coasting
    friction toward 0 with snap-to-0 under magnitude 5, and the final
    clamp to [-MAX_SPEED + MAX_SPEED/2, MAX_SPEED]. -/
def speed_update (c : CarControls) (speed dt : ℚ) : ℚ :=
  clampQ
    (if c.s_key then
      if |speed| ≤ 10 then 0 else speed - FRICTION * dt * (12/10)
    else if c.w_key then
      speed + CAR_THRUST * dt
    else if |speed| ≤ 5 then 0
    else if speed > 0 then speed - FRICTION * dt
    else if speed < 0 then speed + FRICTION * dt
    else 0)
    (-MAX_SPEED + MAX_SPEED / 2) MAX_SPEED

/-- update_car_input: overwrites the TurnSpeed and the Speed components. -/
def update_car_input (c : CarControls) (speed dt : ℚ) : ℚ × ℚ :=
  (turn_speed_update c, speed_update c speed dt)

/-- The value of the Speed component at the end of car_manual_input_system:
    after update_car_input has clamped the speed, the turbo window
    (stopwatch elapsed < 0.2 s) adds TURBO_BOOST on top of the clamped value. -/
def car_manual_input_speed (c : CarControls) (speed dt turbo_elapsed : ℚ) : ℚ :=
  if turbo_elapsed < 2/10 then (update_car_input c speed dt).2 + TURBO_BOOST
  else (update_car_input c speed dt).2

/-- The angle added by transform.rotate_z in car_manual_input_system:
    rotation_factor * 0.1 * time_step with time_step the fixed 1/60,
    applied only when the speed magnitude exceeds MIN_SPEED_TO_STEER.
    The frame delta dt scales only the translation in the source, not
    the rotation, so it is unused here. -/
def car_manual_input_rotation_delta (c : CarControls) (speed dt : ℚ) : ℚ :=
  if |speed| > MIN_SPEED_TO_STEER then turn_speed_update c * (1/10) * (1/60) else 0

/-- check_obstacle_collision for one registered obstacle: inside the
    25-unit axis-aligned box the Speed component is forced to -6. -/
def check_obstacle_collision (obstacle_pos car_pos : ℚ × ℚ) (speed : ℚ) : ℚ :=
  if |obstacle_pos.1 - car_pos.1| ≤ 25 ∧ |obstacle_pos.2 - car_pos.2| ≤ 25 then -6
  else speed

/-- setup_game spawns the car with Turbo(Stopwatch::new()); a fresh
    Stopwatch has zero elapsed time. -/
def setup_game_turbo_elapsed : ℚ := 0

/-- The entity-count setting ladder from GameSettings. -/
inductive EntityCount
  | Hundred
  | FiveHundred
  | Thousand
  | FiveThousand
  | TenThousand
  | TwentyThousand
  | FiftyThousand

/-- GameSettings::get_num_max_zombies. -/
def get_num_max_zombies : EntityCount → ℕ
  | .Hundred => 100
  | .FiveHundred => 500
  | .Thousand => 1000
  | .FiveThousand => 5000
  | .TenThousand => 10000
  | .TwentyThousand => 20000
  | .FiftyThousand => 50000

/-- num_zombies in spawn_zombies:
    (max_zombies * progress + 5.0).min(max_zombies). -/
def num_zombies (max_zombies : ℕ) (progress : ℚ) : ℚ :=
  min ((max_zombies : ℚ) * progress + 5) (max_zombies : ℚ)

/-- Rust `as usize` applied to an f32: truncation toward zero,
    saturating at 0 for negative values. -/
def f32_as_usize (q : ℚ) : ℕ := ⌊q⌋.toNat

/-- The live zombie count after one run of spawn_zombies: when the count
    is at least the truncated cap nothing spawns, otherwise the loop
    spawns a full batch of 50 zombies. -/
def spawn_zombies_count (max_zombies count : ℕ) (progress : ℚ) : ℕ :=
  if count ≥ f32_as_usize (num_zombies max_zombies progress) then count
  else count + 50

/-- handle_zombie_player_hit: with no hit events or god mode on it returns
    early; otherwise health drops by ZOMBIE_ATTACK per hit event and a
    PlayerDeadEvent (the Bool) fires when the result is ≤ 0. -/
def handle_zombie_player_hit (health : ℚ) (hits : ℕ) (god_mode : Bool) : ℚ × Bool :=
  if hits = 0 ∨ god_mode = true then (health, false)
  else (health - ZOMBIE_ATTACK * hits, decide (health - ZOMBIE_ATTACK * (hits : ℚ) ≤ 0))

/-- update_car_progress: progress is the car y coordinate divided by
    TILE_H * ROAD_SCALE * ROAD_HEIGHT, recomputed from scratch. -/
def update_car_progress (car_y : ℚ) : ℚ :=
  car_y / ((TILE_H : ℚ) * ROAD_SCALE * (ROAD_HEIGHT : ℚ))

/-- handle_game_complete: progress < -0.1 ends the run (wrong way),
    progress < 1.0 is a no-op, otherwise progress is set to exactly 1.0
    and the run ends.  The Bool records whether GameOver was set. -/
def handle_game_complete (progress : ℚ) : ℚ × Bool :=
  if progress < -(1/10) then (progress, true)
  else if progress < 1 then (progress, false)
  else (1, true)

/-- The target y computation in update_zombies: the car y, pushed further
    ahead when the zombie is more than 500 units ahead and the random
    draw exceeds 0.5. -/
def zombie_target_y (zombie_y car_y overshoot_draw overshoot_extra : ℚ) : ℚ :=
  if zombie_y - car_y > 500 ∧ overshoot_draw > 1/2 then car_y + overshoot_extra
  else car_y

/-- Model of glam Vec3::normalize as used by update_zombies: the zero
    vector has length 0, and multiplying by the reciprocal length yields
    NaN components, modelled as none; a nonzero vector normalizes to a
    well-defined direction, modelled by the vector itself because exact
    unit scaling is irrational over ℚ and no theorem below depends on
    the scaling of a nonzero direction. -/
def vec_normalize_nan (v : ℚ × ℚ) : Option (ℚ × ℚ) :=
  if v = (0, 0) then none else some v

/-- One zombie translation update in update_zombies:
    dir = (target - position).normalize(), then
    position += (dir + rand_dir) * ZOMBIE_SPEED * dt.
    A none result records that NaN entered the position components. -/
def update_zombies_translation (zombie car : ℚ × ℚ)
    (overshoot_draw overshoot_extra : ℚ) (jitter : ℚ × ℚ) (dt : ℚ) :
    Option (ℚ × ℚ) :=
  match vec_normalize_nan
      (car.1 - zombie.1,
        zombie_target_y zombie.2 car.2 overshoot_draw overshoot_extra - zombie.2) with
  | none => none
  | some d =>
      some (zombie.1 + (d.1 + jitter.1) * ZOMBIE_SPEED * dt,
            zombie.2 + (d.2 + jitter.2) * ZOMBIE_SPEED * dt)

/-- The lateral-offset state of spawn_road: current offset, the next
    segment offset n_offset, and the previous segment offset p_offset. -/
structure RoadGenState where
  offset : ℤ
  n_offset : ℤ
  p_offset : ℤ

/-- spawn_road starts with offset = n_offset = p_offset = 0. -/
def road_gen_init : RoadGenState := ⟨0, 0, 0⟩

/-- The update performed every 5th row (j % 5 == 0, below the top rows):
    p_offset = offset; offset = n_offset; n_offset += draw,
    with draw the rng.gen_range(-1..=1) result. -/
def segment_step (draw : ℤ) (s : RoadGenState) : RoadGenState :=
  { p_offset := s.offset, offset := s.n_offset, n_offset := s.n_offset + draw }

/-- The offset state after k segment boundaries, for a given draw stream. -/
def segment_offsets (draws : ℕ → ℤ) : ℕ → RoadGenState
  | 0 => road_gen_init
  | k + 1 => segment_step (draws k) (segment_offsets draws k)

/-- The road tiles inserted into RoadTiles for one row j at a given
    offset: (i + offset, j) for i in 0..=ROAD_WIDTH. -/
def row_tiles (offset j : ℤ) : List (ℤ × ℤ) :=
  (List.range (ROAD_WIDTH + 1)).map (fun (i : ℕ) => ((i : ℤ) + offset, j))

/-! ## Helper lemmas -/

lemma clampQ_mem (x lo hi : ℚ) (h : lo ≤ hi) :
    lo ≤ clampQ x lo hi ∧ clampQ x lo hi ≤ hi := by
  unfold clampQ
  split_ifs with h1 h2
  · exact ⟨le_rfl, h⟩
  · exact ⟨h, le_rfl⟩
  · exact ⟨le_of_not_lt h1, le_of_not_lt h2⟩

lemma speed_update_mem (c : CarControls) (speed dt : ℚ) :
    -20 ≤ speed_update c speed dt ∧ speed_update c speed dt ≤ 40 := by
  have h1 : (-MAX_SPEED + MAX_SPEED / 2 : ℚ) = -20 := by norm_num [MAX_SPEED]
  have h2 : (MAX_SPEED : ℚ) = 40 := by norm_num [MAX_SPEED]
  unfold speed_update
  rw [h1, h2]
  exact clampQ_mem _ _ _ (by norm_num)

/-! ## Claim theorems -/

/-- C1 counterexample: with the turbo window active (elapsed 0 < 0.2 s)
    and the car coasting at speed 40, the speed at the end of the physics
    update of the tick is 299/3 (about 99.7), exceeding MAX_SPEED = 40:
    the turbo boost is added after the clamp. -/
theorem C1_counterexample :
    MAX_SPEED < car_manual_input_speed ⟨false, false, false, false⟩ 40 (1/60) 0 := by
  norm_num [car_manual_input_speed, update_car_input, speed_update, clampQ,
    MAX_SPEED, FRICTION, TURBO_BOOST]

/-- C1 (amended): at the end of the physics update of a tick the vehicle
    speed lies in [-MAX_SPEED/2, MAX_SPEED + TURBO_BOOST]; it lies in
    [-MAX_SPEED/2, MAX_SPEED] whenever the turbo window is not active
    (elapsed ≥ 0.2 s); and the obstacle-collision write keeps any speed
    already in that interval inside it (it writes -6 on contact). -/
theorem C1_speed_bound (c : CarControls) (speed dt turbo_elapsed s0 : ℚ)
    (op cp : ℚ × ℚ)
    (h0 : -(MAX_SPEED / 2) ≤ s0) (h1 : s0 ≤ MAX_SPEED + TURBO_BOOST) :
    (-(MAX_SPEED / 2) ≤ car_manual_input_speed c speed dt turbo_elapsed
      ∧ car_manual_input_speed c speed dt turbo_elapsed ≤ MAX_SPEED + TURBO_BOOST)
    ∧ (2/10 ≤ turbo_elapsed →
        car_manual_input_speed c speed dt turbo_elapsed ≤ MAX_SPEED)
    ∧ (-(MAX_SPEED / 2) ≤ check_obstacle_collision op cp s0
      ∧ check_obstacle_collision op cp s0 ≤ MAX_SPEED + TURBO_BOOST) := by
  have hs := speed_update_mem c speed dt
  have hm : (MAX_SPEED : ℚ) = 40 := by norm_num [MAX_SPEED]
  have hb : (TURBO_BOOST : ℚ) = 60 := by norm_num [TURBO_BOOST]
  simp only [hm, hb] at h0 h1 ⊢
  unfold car_manual_input_speed update_car_input check_obstacle_collision
  refine ⟨?_, ?_, ?_⟩
  · split_ifs <;> constructor <;> simp only [] <;> linarith [hs.1, hs.2]
  · intro ht
    rw [if_neg (by linarith)]
    simp only []
    linarith [hs.2]
  · split_ifs <;> constructor <;> linarith

/-- Witness for C1_speed_bound at a concrete input. -/
theorem C1_speed_bound_witness :
    ((-(MAX_SPEED / 2) ≤ car_manual_input_speed ⟨false, false, false, false⟩ 0 0 1
      ∧ car_manual_input_speed ⟨false, false, false, false⟩ 0 0 1 ≤ MAX_SPEED + TURBO_BOOST)
    ∧ ((2/10 : ℚ) ≤ 1 →
        car_manual_input_speed ⟨false, false, false, false⟩ 0 0 1 ≤ MAX_SPEED)
    ∧ (-(MAX_SPEED / 2) ≤ check_obstacle_collision (0, 0) (0, 0) 0
      ∧ check_obstacle_collision (0, 0) (0, 0) 0 ≤ MAX_SPEED + TURBO_BOOST)) :=
  C1_speed_bound ⟨false, false, false, false⟩ 0 0 1 0 (0, 0) (0, 0)
    (by norm_num [MAX_SPEED]) (by norm_num [MAX_SPEED, TURBO_BOOST])

/-- C2 counterexample: with the entity count set to 100 and progress 0 the
    cap formula gives min(100, 100*0 + 5) = 5, yet the spawn step run with
    0 live zombies leaves 50 live zombies, exceeding the cap. -/
theorem C2_counterexample :
    spawn_zombies_count (get_num_max_zombies EntityCount.Hundred) 0 0 = 50
    ∧ ¬ ((spawn_zombies_count (get_num_max_zombies EntityCount.Hundred) 0 0 : ℚ)
        ≤ num_zombies (get_num_max_zombies EntityCount.Hundred) 0) := by
  have h5 : num_zombies (get_num_max_zombies EntityCount.Hundred) 0 = 5 := by
    norm_num [num_zombies, get_num_max_zombies]
  have hfl : f32_as_usize (num_zombies (get_num_max_zombies EntityCount.Hundred) 0) = 5 := by
    rw [h5]
    decide
  constructor
  · rw [spawn_zombies_count, hfl]
    norm_num
  · rw [spawn_zombies_count, hfl, h5]
    norm_num

/-- C2 (amended): the spawn step adds a batch of 50 zombies exactly when
    the live count is strictly below the truncated cap
    ⌊min(cap, cap * progress + 5)⌋, so after the spawn step the live count
    is at most max(previous count, ⌊min(cap, cap * progress + 5)⌋ + 49);
    the stated cap formula can be exceeded by up to 49. -/
theorem C2_population_cap (ec : EntityCount) (count : ℕ) (progress : ℚ) :
    spawn_zombies_count (get_num_max_zombies ec) count progress
      ≤ max count (f32_as_usize (num_zombies (get_num_max_zombies ec) progress) + 49) := by
  unfold spawn_zombies_count
  split_ifs with h
  · exact le_max_left _ _
  · exact le_trans (by omega) (le_max_right _ _)

/-- C3 (code bug): an enemy whose position exactly equals its target point
    is not special-cased; the direction vector is the zero vector, glam
    normalize produces NaN components, and the NaN propagates into the
    position (modelled as none) instead of the zero displacement the
    specification requires.  Evaluated at zombie (0,0), car (0,0),
    overshoot draw 0, jitter (0,0), dt = 1/60. -/
theorem C3_zero_direction_nan :
    update_zombies_translation (0, 0) (0, 0) 0 0 (0, 0) (1/60) = none := by
  norm_num [update_zombies_translation, zombie_target_y, vec_normalize_nan]

/-- C4 counterexample: with health 1, one hit event and god mode off, the
    health-resolution step leaves health at -1 < 0: health is not clamped
    at 0 (the dead event does fire). -/
theorem C4_counterexample :
    (handle_zombie_player_hit 1 1 false).1 = -1
    ∧ (handle_zombie_player_hit 1 1 false).1 < 0
    ∧ (handle_zombie_player_hit 1 1 false).2 = true := by
  norm_num [handle_zombie_player_hit, ZOMBIE_ATTACK]

/-- C4 (amended): the health-resolution step never increases health, so
    health stays at most MAX_HEALTH; the run-ending dead event fires
    exactly when there were hits, god mode is off and the updated health
    is ≤ 0; health is not clamped below 0 and can go negative on the
    fatal tick. -/
theorem C4_health_bound (health : ℚ) (hits : ℕ) (god_mode : Bool)
    (h : health ≤ MAX_CAR_HEALTH) :
    (handle_zombie_player_hit health hits god_mode).1 ≤ health
    ∧ (handle_zombie_player_hit health hits god_mode).1 ≤ MAX_CAR_HEALTH
    ∧ ((handle_zombie_player_hit health hits god_mode).2 = true ↔
        ¬(hits = 0 ∨ god_mode = true)
          ∧ (handle_zombie_player_hit health hits god_mode).1 ≤ 0) := by
  have hz : (ZOMBIE_ATTACK : ℚ) = 2 := by norm_num [ZOMBIE_ATTACK]
  unfold handle_zombie_player_hit
  split_ifs with hg
  · exact ⟨le_rfl, h, by simp [hg]⟩
  · have hdrop : health - ZOMBIE_ATTACK * (hits : ℚ) ≤ health := by
      rw [hz]
      have : (0 : ℚ) ≤ 2 * (hits : ℚ) := by positivity
      linarith
    exact ⟨hdrop, le_trans hdrop h, by simp [hg]⟩

/-- Witness for C4_health_bound at a concrete input. -/
theorem C4_health_bound_witness :
    (handle_zombie_player_hit 200 1 false).1 ≤ 200
    ∧ (handle_zombie_player_hit 200 1 false).1 ≤ MAX_CAR_HEALTH
    ∧ ((handle_zombie_player_hit 200 1 false).2 = true ↔
        ¬((1 : ℕ) = 0 ∨ false = true)
          ∧ (handle_zombie_player_hit 200 1 false).1 ≤ 0) :=
  C4_health_bound 200 1 false (by norm_num [MAX_CAR_HEALTH])

/-- C5: progress is recomputed each tick as car_y divided by the total
    road length TILE_H * ROAD_SCALE * ROAD_HEIGHT = 48000 with no
    smoothing; handle_game_complete ends the run when progress < -0.1,
    does nothing for progress in [-0.1, 1), and for progress ≥ 1 clamps
    it to exactly 1 and ends the run. -/
theorem C5_progress_contract (car_y progress : ℚ) :
    update_car_progress car_y = car_y / 48000
    ∧ (progress < -(1/10) → handle_game_complete progress = (progress, true))
    ∧ (-(1/10) ≤ progress → progress < 1 →
        handle_game_complete progress = (progress, false))
    ∧ (1 ≤ progress → handle_game_complete progress = (1, true)) := by
  refine ⟨?_, ?_, ?_, ?_⟩
  · norm_num [update_car_progress, TILE_H, ROAD_SCALE, ROAD_HEIGHT]
  · intro h
    rw [handle_game_complete, if_pos h]
  · intro h1 h2
    rw [handle_game_complete, if_neg (not_lt.mpr h1), if_pos h2]
  · intro h
    rw [handle_game_complete, if_neg (by linarith), if_neg (not_lt.mpr h)]

/-- Witness for C5_progress_contract at concrete inputs. -/
theorem C5_progress_contract_witness :
    update_car_progress 24000 = 24000 / 48000
    ∧ handle_game_complete (1/2) = (1/2, false) :=
  ⟨(C5_progress_contract 24000 (1/2)).1,
    (C5_progress_contract 24000 (1/2)).2.2.1 (by norm_num) (by norm_num)⟩

/-- C6 counterexample: with the left key held and speed 10, the angular
    update at frame delta 1/30 equals the one at frame delta 1/60 and is
    nonzero, so it is not proportional to the real frame delta; in
    particular it differs from TURN_SPEED * 0.1 * (1/60) * (1/30), the
    claimed formula at delta 1/30. -/
theorem C6_counterexample :
    car_manual_input_rotation_delta ⟨false, true, false, false⟩ 10 (1/30)
      = car_manual_input_rotation_delta ⟨false, true, false, false⟩ 10 (1/60)
    ∧ car_manual_input_rotation_delta ⟨false, true, false, false⟩ 10 (1/30) ≠ 0
    ∧ car_manual_input_rotation_delta ⟨false, true, false, false⟩ 10 (1/30)
      ≠ TURN_SPEED * (1/10) * (1/60) * (1/30) := by
  refine ⟨rfl, ?_, ?_⟩ <;>
    norm_num [car_manual_input_rotation_delta, turn_speed_update,
      TURN_SPEED, MIN_SPEED_TO_STEER]

/-- C6 (amended): the per-tick angular update is the turn-rate constant
    (TURN_SPEED when left, -TURN_SPEED when right, else 0) scaled by the
    fixed factors 0.1 and 1/60, independent of the real frame delta,
    whenever the speed magnitude exceeds MIN_SPEED_TO_STEER. -/
theorem C6_rotation_fixed_step (c : CarControls) (speed dt dt' : ℚ)
    (h : |speed| > MIN_SPEED_TO_STEER) :
    car_manual_input_rotation_delta c speed dt
      = car_manual_input_rotation_delta c speed dt'
    ∧ car_manual_input_rotation_delta c speed dt
      = turn_speed_update c * (1/10) * (1/60)
    ∧ (c.a_key = true → turn_speed_update c = TURN_SPEED)
    ∧ (c.a_key = false → c.d_key = true → turn_speed_update c = -TURN_SPEED)
    ∧ (c.a_key = false → c.d_key = false → turn_speed_update c = 0) := by
  refine ⟨rfl, ?_, ?_, ?_, ?_⟩
  · rw [car_manual_input_rotation_delta, if_pos h]
  · intro ha
    rw [turn_speed_update, ha]
    simp
  · intro ha hd
    rw [turn_speed_update, ha, hd]
    simp
  · intro ha hd
    rw [turn_speed_update, ha, hd]
    simp

/-- Witness for C6_rotation_fixed_step at a concrete input. -/
theorem C6_rotation_fixed_step_witness :
    car_manual_input_rotation_delta ⟨false, true, false, false⟩ 10 (1/30)
      = car_manual_input_rotation_delta ⟨false, true, false, false⟩ 10 (1/60)
    ∧ car_manual_input_rotation_delta ⟨false, true, false, false⟩ 10 (1/30)
      = turn_speed_update ⟨false, true, false, false⟩ * (1/10) * (1/60)
    ∧ ((CarControls.mk false true false false).a_key = true →
        turn_speed_update ⟨false, true, false, false⟩ = TURN_SPEED)
    ∧ ((CarControls.mk false true false false).a_key = false →
        (CarControls.mk false true false false).d_key = true →
        turn_speed_update ⟨false, true, false, false⟩ = -TURN_SPEED)
    ∧ ((CarControls.mk false true false false).a_key = false →
        (CarControls.mk false true false false).d_key = false →
        turn_speed_update ⟨false, true, false, false⟩ = 0) :=
  C6_rotation_fixed_step ⟨false, true, false, false⟩ 10 (1/30) (1/60)
    (by norm_num [MIN_SPEED_TO_STEER])

/-- C7: for any draw stream taking values in [-1, 1] (the source draws
    rng.gen_range(-1..=1)), the lateral offsets of consecutive 5-row
    segments differ by at most 1; and the tiles inserted for a row at
    offset o are exactly the contiguous cells o..o+ROAD_WIDTH of that
    row, ROAD_WIDTH + 1 of them, with no duplicates. -/
theorem C7_road_continuity (draws : ℕ → ℤ) (k : ℕ) (o j x y : ℤ)
    (h : ∀ n, -1 ≤ draws n ∧ draws n ≤ 1) :
    |(segment_offsets draws (k+1)).offset - (segment_offsets draws k).offset| ≤ 1
    ∧ ((x, y) ∈ row_tiles o j ↔ y = j ∧ o ≤ x ∧ x ≤ o + (ROAD_WIDTH : ℤ))
    ∧ (row_tiles o j).length = ROAD_WIDTH + 1
    ∧ (row_tiles o j).Nodup := by
  refine ⟨?_, ?_, ?_, ?_⟩
  · cases k with
    | zero => simp [segment_offsets, segment_step, road_gen_init]
    | succ m =>
      have e : (segment_offsets draws (m+2)).offset
          - (segment_offsets draws (m+1)).offset = draws m := by
        simp [segment_offsets, segment_step]
      rw [e]
      exact abs_le.mpr ⟨(h m).1, (h m).2⟩
  · simp only [row_tiles, List.mem_map, List.mem_range, Prod.mk.injEq, ROAD_WIDTH]
    constructor
    · rintro ⟨i, hi, hx, hy⟩
      refine ⟨hy.symm, ?_, ?_⟩ <;> omega
    · rintro ⟨hy, h1, h2⟩
      refine ⟨(x - o).toNat, ?_, ?_, hy.symm⟩ <;> omega
  · unfold row_tiles
    rw [List.length_map, List.length_range]
  · unfold row_tiles
    apply List.Nodup.map
    · intro a b hab
      simp only [Prod.mk.injEq] at hab
      omega
    · exact List.nodup_range _

/-- Witness for C7_road_continuity at a concrete input. -/
theorem C7_road_continuity_witness :
    |(segment_offsets (fun _ => 0) 1).offset - (segment_offsets (fun _ => 0) 0).offset| ≤ 1
    ∧ (((0 : ℤ), (0 : ℤ)) ∈ row_tiles 0 0 ↔
        (0 : ℤ) = 0 ∧ (0 : ℤ) ≤ 0 ∧ (0 : ℤ) ≤ 0 + (ROAD_WIDTH : ℤ))
    ∧ (row_tiles 0 0).length = ROAD_WIDTH + 1
    ∧ (row_tiles 0 0).Nodup :=
  C7_road_continuity (fun _ => 0) 0 0 0 0 0 (fun _ => by norm_num)

/-- C8: with god mode active the health-resolution step returns early for
    any health value and any number of hit events: health is unchanged
    and no dead event fires. -/
theorem C8_god_mode (health : ℚ) (hits : ℕ) :
    handle_zombie_player_hit health hits true = (health, false) := by
  simp [handle_zombie_player_hit]

/-- C9: setup_game creates the turbo stopwatch with zero elapsed time,
    which is inside the 0.2 s boost window, and on every tick whose
    elapsed turbo time is below 0.2 s — including the first ticks of a
    fresh run with no turbo trigger ever pressed — the physics update
    adds TURBO_BOOST on top of the clamped speed. -/
theorem C9_turbo_at_start (c : CarControls) (speed dt turbo_elapsed : ℚ)
    (h : turbo_elapsed < 2/10) :
    setup_game_turbo_elapsed = 0
    ∧ setup_game_turbo_elapsed < 2/10
    ∧ car_manual_input_speed c speed dt turbo_elapsed
      = speed_update c speed dt + TURBO_BOOST := by
  refine ⟨rfl, by norm_num [setup_game_turbo_elapsed], ?_⟩
  rw [car_manual_input_speed, if_pos h, update_car_input]

/-- Witness for C9_turbo_at_start at a concrete input. -/
theorem C9_turbo_at_start_witness :
    setup_game_turbo_elapsed = 0
    ∧ setup_game_turbo_elapsed < 2/10
    ∧ car_manual_input_speed ⟨false, false, false, false⟩ 10 (1/60) 0
      = speed_update ⟨false, false, false, false⟩ 10 (1/60) + TURBO_BOOST :=
  C9_turbo_at_start ⟨false, false, false, false⟩ 10 (1/60) 0 (by norm_num)

/-- C10: while braking with a speed below -10 (and at least the clamp
    bound -MAX_SPEED/2), the speed update subtracts the braking friction
    term FRICTION * dt * 1.2, so the already negative speed never rises,
    strictly decreases while above the clamp bound, and never drops
    below -MAX_SPEED/2: braking drives the speed away from 0 toward the
    lower clamp. -/
theorem C10_brake_below_minus_ten (speed dt : ℚ) (w a d : Bool)
    (h0 : -(MAX_SPEED / 2) ≤ speed) (h1 : speed < -10) (h2 : 0 < dt) :
    speed_update ⟨w, a, true, d⟩ speed dt ≤ speed
    ∧ (-(MAX_SPEED / 2) < speed → speed_update ⟨w, a, true, d⟩ speed dt < speed)
    ∧ -(MAX_SPEED / 2) ≤ speed_update ⟨w, a, true, d⟩ speed dt := by
  have hm : (MAX_SPEED : ℚ) = 40 := by norm_num [MAX_SPEED]
  have hf : (FRICTION : ℚ) = 20 := by norm_num [FRICTION]
  have habs : ¬ |speed| ≤ 10 := by
    rw [abs_of_neg (by linarith)]
    linarith
  rw [hm] at h0 ⊢
  unfold speed_update clampQ
  simp only [if_neg habs]
  rw [hm, hf]
  norm_num
  split_ifs with hA hB
  · refine ⟨by linarith, fun hs => by linarith, by linarith⟩
  · refine ⟨by linarith, fun hs => by linarith, by linarith⟩
  · refine ⟨by linarith, fun hs => by linarith, by linarith⟩

/-- Witness for C10_brake_below_minus_ten at a concrete input. -/
theorem C10_brake_below_minus_ten_witness :
    speed_update ⟨false, false, true, false⟩ (-15) (1/60) ≤ -15
    ∧ (-(MAX_SPEED / 2) < (-15 : ℚ) →
        speed_update ⟨false, false, true, false⟩ (-15) (1/60) < -15)
    ∧ -(MAX_SPEED / 2) ≤ speed_update ⟨false, false, true, false⟩ (-15) (1/60) :=
  C10_brake_below_minus_ten (-15) (1/60) false false false
    (by norm_num [MAX_SPEED]) (by norm_num) (by norm_num)
